import Mathlib

/-!
# Verification of the epowerx_on_base order-sizing, book-maintenance and fill-tracking core

Shallow embedding of the repository's core logic:

* the Order Sizing Guard `computeSafeOrderSizeUSD` (two revisions of the
  order-guard utility),
* the Order Book Maintainer's excess-order trimming and per-cycle placement
  trace (`placeVolumeOrders`, DEX-referenced revision),
* the Fill/Profit Tracker's FILLED-order processing and batch status polling
  (`updateOrderStatus`),
* the balance-checked `placeBuyOrder` / `placeSellOrder` wrappers.

Monetary quantities (JS `number`s in the source) are modelled as rationals;
the properties verified here concern branch logic and exact arithmetic
identities, not floating-point rounding.
-/

namespace EpowerX

/-- `Math.max` on rationals, written with an explicit comparison so that
concrete instances evaluate by kernel reduction. -/
def mathMax (a b : ℚ) : ℚ := if a ≤ b then b else a

/-- `Math.min` on rationals, written with an explicit comparison so that
concrete instances evaluate by kernel reduction. -/
def mathMin (a b : ℚ) : ℚ := if a ≤ b then a else b

theorem mathMax_eq (a b : ℚ) : mathMax a b = max a b := by
  rw [mathMax, max_def]

theorem mathMin_eq (a b : ℚ) : mathMin a b = min a b := by
  rw [mathMin, min_def]

/-- Rejection reason codes returned by the Order Sizing Guard. -/
inductive GuardReason where
  | insufficientFree
  | insufficientAfterReservations
  | belowMinOrderSize
  | insufficientUsableBalance
deriving DecidableEq, Repr

/-- Input of `computeSafeOrderSizeUSD` (the `OrderGuardOptions` interface):
free quote balance, count of orders about to be placed, quote balance reserved
by tracked open orders, fee buffer, minimum-free threshold, usable-balance
fraction and hard per-order cap.  The TS defaults (0.5, 1.0, 0.8, 10) are
applied by the caller. -/
structure OrderGuardOptions where
  freeUSDT : ℚ
  totalOrdersToPlace : ℕ
  reservedForActiveOrdersUSD : ℚ
  feeBufferUSD : ℚ
  minFreeUSD : ℚ
  orderSizePercent : ℚ
  maxOrderUSDCap : ℚ
deriving DecidableEq, Repr

/-- Result of the Order Sizing Guard. -/
structure OrderGuardResult where
  allowed : Bool
  perOrderUSD : ℚ
  usableUSD : ℚ
  reason : Option GuardReason
deriving DecidableEq, Repr

/-- Order Sizing Guard, revision at part_003 lines 211-285.
`minOrderSize` is `config.volumeStrategy.minOrderSize`, read from
configuration inside the TS function and therefore passed explicitly here.
Branches, in source order: `freeUSDT <= minFreeUSD` rejects with
`insufficient_free` (reporting `usableUSD = 0`); then
`usableUSD = max(0, freeUSDT - feeBufferUSD - reservedForActiveOrdersUSD)`
and `usableUSD <= 0` rejects with `insufficient_after_reservations`; then
`perOrderUSD = min(maxOrderUSDCap, usableUSD * orderSizePercent / max(1, totalOrdersToPlace))`
and `perOrderUSD < minOrderSize` rejects with `below_min_order_size`;
otherwise the orders are allowed. -/
def computeSafeOrderSizeUSD (o : OrderGuardOptions) (minOrderSize : ℚ) :
    OrderGuardResult :=
  if o.freeUSDT ≤ o.minFreeUSD then
    ⟨false, 0, 0, some GuardReason.insufficientFree⟩
  else
    let usableUSD : ℚ := mathMax 0 (o.freeUSDT - o.feeBufferUSD - o.reservedForActiveOrdersUSD)
    if usableUSD ≤ 0 then
      ⟨false, 0, 0, some GuardReason.insufficientAfterReservations⟩
    else
      let perOrderUSD : ℚ :=
        mathMin o.maxOrderUSDCap
          (usableUSD * o.orderSizePercent / ((max 1 o.totalOrdersToPlace : ℕ) : ℚ))
      if perOrderUSD < minOrderSize then
        ⟨false, 0, usableUSD, some GuardReason.belowMinOrderSize⟩
      else
        ⟨true, perOrderUSD, usableUSD, none⟩

/-- Order Sizing Guard, revision at part_003 lines 123-183 (`order-guard`
utility).  Differences from the lines-211 revision: `usableUSD` is computed
before the `insufficient_free` check and reported on that branch;
`minOrderSize` is an optional configuration override; a final
`perOrderUSD <= 0` check rejects with `insufficient_usable_balance`. -/
def computeSafeOrderSizeUSD_v1 (o : OrderGuardOptions) (minOrderSize : Option ℚ) :
    OrderGuardResult :=
  let usableUSD : ℚ := mathMax 0 (o.freeUSDT - o.feeBufferUSD - o.reservedForActiveOrdersUSD)
  if o.freeUSDT ≤ o.minFreeUSD then
    ⟨false, 0, usableUSD, some GuardReason.insufficientFree⟩
  else
    let perOrderUSD : ℚ :=
      mathMin o.maxOrderUSDCap
        (usableUSD * o.orderSizePercent / ((max 1 o.totalOrdersToPlace : ℕ) : ℚ))
    if minOrderSize.any (fun m => decide (perOrderUSD < m)) then
      ⟨false, 0, usableUSD, some GuardReason.belowMinOrderSize⟩
    else if perOrderUSD ≤ 0 then
      ⟨false, 0, usableUSD, some GuardReason.insufficientUsableBalance⟩
    else
      ⟨true, perOrderUSD, usableUSD, none⟩

/-- The usable notional of the spec's invariant:
`max(0, freeQuoteBalance - feeBufferAmount - reservedQuoteBalance)`. -/
def usableNotional (o : OrderGuardOptions) : ℚ :=
  mathMax 0 (o.freeUSDT - o.feeBufferUSD - o.reservedForActiveOrdersUSD)

/-- Concrete guard input used by witnesses: $100 free, 10 orders to place,
nothing reserved, with the TS default buffer/threshold/fraction/cap. -/
def sampleGuardInput : OrderGuardOptions :=
  ⟨100, 10, 0, 1/2, 1, 4/5, 10⟩

/-- Concrete guard input with `freeUSDT = minFreeUSD = 1` and fee buffer 1/2:
the `insufficient_free` branch fires while
`max(0, freeUSDT - feeBufferUSD - reservedForActiveOrdersUSD) = 1/2`. -/
def lowBalanceGuardInput : OrderGuardOptions :=
  ⟨1, 1, 0, 1/2, 1, 4/5, 10⟩

/-- Claim C1: whenever the free quote balance exceeds the minimum-free
threshold, the usable notional is positive, at least one order is to be
placed and the computed per-order notional is at least the configured
minimum order size, the Guard allows the orders and returns
`perOrderUSD = min(maxOrderUSDCap, usableNotional * orderSizePercent / totalOrdersToPlace)`. -/
theorem guard_allows_formula (o : OrderGuardOptions) (minOrderSize : ℚ)
    (h1 : o.minFreeUSD < o.freeUSDT)
    (h2 : 0 < usableNotional o)
    (h3 : 1 ≤ o.totalOrdersToPlace)
    (h4 : minOrderSize ≤ mathMin o.maxOrderUSDCap
        (usableNotional o * o.orderSizePercent / (o.totalOrdersToPlace : ℚ))) :
    (computeSafeOrderSizeUSD o minOrderSize).allowed = true ∧
    (computeSafeOrderSizeUSD o minOrderSize).perOrderUSD
      = mathMin o.maxOrderUSDCap
          (usableNotional o * o.orderSizePercent / (o.totalOrdersToPlace : ℚ)) := by
  have hmax : ((max 1 o.totalOrdersToPlace : ℕ) : ℚ) = (o.totalOrdersToPlace : ℚ) := by
    rw [Nat.max_eq_right h3]
  simp only [computeSafeOrderSizeUSD, usableNotional, hmax] at *
  rw [if_neg (not_le.mpr h1), if_neg (not_le.mpr h2), if_neg (not_lt.mpr h4)]
  exact ⟨rfl, rfl⟩

/-- Witness for C1 at the sample input ($100 free, 10 orders, defaults,
minimum order size 1). -/
theorem guard_allows_formula_witness :
    sampleGuardInput.minFreeUSD < sampleGuardInput.freeUSDT ∧
    0 < usableNotional sampleGuardInput ∧
    1 ≤ sampleGuardInput.totalOrdersToPlace ∧
    (1 : ℚ) ≤ mathMin sampleGuardInput.maxOrderUSDCap
        (usableNotional sampleGuardInput * sampleGuardInput.orderSizePercent
          / (sampleGuardInput.totalOrdersToPlace : ℚ)) ∧
    ((computeSafeOrderSizeUSD sampleGuardInput 1).allowed = true ∧
     (computeSafeOrderSizeUSD sampleGuardInput 1).perOrderUSD
       = mathMin sampleGuardInput.maxOrderUSDCap
           (usableNotional sampleGuardInput * sampleGuardInput.orderSizePercent
             / (sampleGuardInput.totalOrdersToPlace : ℚ))) :=
  ⟨by norm_num [sampleGuardInput],
   by norm_num [usableNotional, sampleGuardInput, mathMax],
   by norm_num [sampleGuardInput],
   by norm_num [usableNotional, sampleGuardInput, mathMax, mathMin],
   guard_allows_formula sampleGuardInput 1
     (by norm_num [sampleGuardInput])
     (by norm_num [usableNotional, sampleGuardInput, mathMax])
     (by norm_num [sampleGuardInput])
     (by norm_num [usableNotional, sampleGuardInput, mathMax, mathMin])⟩

/-- Claim C2: whenever `freeUSDT <= minFreeUSD`, both revisions of the Guard
return a first-class rejection `allowed = false, reason = insufficient_free`
with a zero per-order notional (the embedding is a total function: no
exception is thrown on this path). -/
theorem guard_insufficient_free (o : OrderGuardOptions) (m : ℚ) (mv1 : Option ℚ)
    (h : o.freeUSDT ≤ o.minFreeUSD) :
    computeSafeOrderSizeUSD o m
      = ⟨false, 0, 0, some GuardReason.insufficientFree⟩ ∧
    computeSafeOrderSizeUSD_v1 o mv1
      = ⟨false, 0, usableNotional o, some GuardReason.insufficientFree⟩ := by
  constructor
  · simp only [computeSafeOrderSizeUSD]
    rw [if_pos h]
  · simp only [computeSafeOrderSizeUSD_v1, usableNotional]
    rw [if_pos h]

/-- Witness for C2 at the low-balance input (`freeUSDT = minFreeUSD = 1`). -/
theorem guard_insufficient_free_witness :
    lowBalanceGuardInput.freeUSDT ≤ lowBalanceGuardInput.minFreeUSD ∧
    (computeSafeOrderSizeUSD lowBalanceGuardInput 50
       = ⟨false, 0, 0, some GuardReason.insufficientFree⟩ ∧
     computeSafeOrderSizeUSD_v1 lowBalanceGuardInput none
       = ⟨false, 0, usableNotional lowBalanceGuardInput, some GuardReason.insufficientFree⟩) :=
  ⟨by norm_num [lowBalanceGuardInput],
   guard_insufficient_free lowBalanceGuardInput 50 none (by norm_num [lowBalanceGuardInput])⟩

/-- Counterexample to claim C3 as stated: at `freeUSDT = minFreeUSD = 1`
with fee buffer 1/2, the lines-211 revision reports `usableUSD = 0` on the
`insufficient_free` branch although
`max(0, freeUSDT - feeBufferUSD - reservedForActiveOrdersUSD) = 1/2`. -/
theorem guard_usable_counterexample :
    (computeSafeOrderSizeUSD lowBalanceGuardInput 50).usableUSD ≠
      mathMax 0 (lowBalanceGuardInput.freeUSDT - lowBalanceGuardInput.feeBufferUSD
        - lowBalanceGuardInput.reservedForActiveOrdersUSD) := by
  norm_num [computeSafeOrderSizeUSD, lowBalanceGuardInput, mathMax]

/-- Claim C3 as amended: for every Guard input with a nonnegative per-order
cap, the returned `perOrderUSD` never exceeds `maxOrderUSDCap` and is 0 on
every rejection branch, and the returned `usableUSD` equals
`max(0, freeUSDT - feeBufferUSD - reservedForActiveOrdersUSD)` on every
branch except the `insufficient_free` rejection, where it is reported as 0. -/
theorem guard_invariants_amended (o : OrderGuardOptions) (m : ℚ)
    (hcap : 0 ≤ o.maxOrderUSDCap) :
    (computeSafeOrderSizeUSD o m).perOrderUSD ≤ o.maxOrderUSDCap ∧
    ((computeSafeOrderSizeUSD o m).allowed = false →
      (computeSafeOrderSizeUSD o m).perOrderUSD = 0) ∧
    (computeSafeOrderSizeUSD o m).usableUSD
      = (if o.freeUSDT ≤ o.minFreeUSD then 0 else usableNotional o) := by
  simp only [computeSafeOrderSizeUSD, usableNotional]
  split_ifs with h1 h2 h3
  · exact ⟨hcap, fun _ => rfl, rfl⟩
  · exact ⟨hcap, fun _ => rfl,
      (le_antisymm h2 (le_max_left 0 _)).symm⟩
  · exact ⟨hcap, fun _ => rfl, rfl⟩
  · exact ⟨min_le_left _ _, fun hfalse => absurd hfalse (by simp), rfl⟩

/-- Witness for the amended C3 at the sample input. -/
theorem guard_invariants_amended_witness :
    (0 : ℚ) ≤ sampleGuardInput.maxOrderUSDCap ∧
    ((computeSafeOrderSizeUSD sampleGuardInput 1).perOrderUSD
        ≤ sampleGuardInput.maxOrderUSDCap ∧
     ((computeSafeOrderSizeUSD sampleGuardInput 1).allowed = false →
       (computeSafeOrderSizeUSD sampleGuardInput 1).perOrderUSD = 0) ∧
     (computeSafeOrderSizeUSD sampleGuardInput 1).usableUSD
       = (if sampleGuardInput.freeUSDT ≤ sampleGuardInput.minFreeUSD then 0
          else usableNotional sampleGuardInput)) :=
  ⟨by norm_num [sampleGuardInput],
   guard_invariants_amended sampleGuardInput 1 (by norm_num [sampleGuardInput])⟩

/-- Claim C9: the Guard is deterministic — its output is a function of its
input alone (the embedding of `computeSafeOrderSizeUSD` reads no mutable
state), so two calls on identical inputs return identical results. -/
theorem guard_deterministic (o o₂ : OrderGuardOptions) (m m₂ : ℚ)
    (ho : o = o₂) (hm : m = m₂) :
    computeSafeOrderSizeUSD o m = computeSafeOrderSizeUSD o₂ m₂ := by
  subst ho
  subst hm
  rfl

/-- Witness for C9: two calls at the sample input agree. -/
theorem guard_deterministic_witness :
    sampleGuardInput = sampleGuardInput ∧ (50 : ℚ) = 50 ∧
    computeSafeOrderSizeUSD sampleGuardInput 50
      = computeSafeOrderSizeUSD sampleGuardInput 50 :=
  ⟨rfl, rfl, guard_deterministic sampleGuardInput sampleGuardInput 50 50 rfl rfl⟩

/-! ## Order Book Maintainer -/

/-- Order side. -/
inductive Side where
  | buy
  | sell
deriving DecidableEq, Repr

/-- An open order as reported by the exchange client (`getOpenOrders`):
id, side, price, amount and creation timestamp. -/
structure Order where
  orderId : ℕ
  side : Side
  price : ℚ
  amount : ℚ
  timestamp : ℕ
deriving DecidableEq, Repr

/-- The open orders of one side, in the order the exchange returned them
(`openOrders.filter(o => o.side === ...)`, part_002 lines 236-237 — no
sorting by timestamp is performed anywhere). -/
def sideOrders (openOrders : List Order) (s : Side) : List Order :=
  openOrders.filter (fun o => decide (o.side = s))

/-- The excess orders cancelled on one side when above the target
(part_002 lines 240-261): `buyOrders.slice(targetOrdersPerSide)` — every
order from list position `target` onwards, by list position, not by
placement timestamp. -/
def excessCancels (openOrders : List Order) (s : Side) (target : ℕ) : List Order :=
  (sideOrders openOrders s).drop target

/-- The orders of one side that survive the excess-cancellation pass: the
complement of `excessCancels`, i.e. the first `target` orders in
exchange-returned list position. -/
def retainedOrders (openOrders : List Order) (s : Side) (target : ℕ) : List Order :=
  (sideOrders openOrders s).take target

/-- The order book of the repository's own regression test
(`volume-generation.strategy.test.ts` lines 81-99): 35 buy orders with
ascending timestamps 1000..1034, then 37 sell orders with ascending
timestamps 2000..2036. -/
def testBuyOrders : List Order :=
  (List.range 35).map (fun i => ⟨i, Side.buy, 99/100, 10, 1000 + i⟩)

/-- Sell side of the test order book. -/
def testSellOrders : List Order :=
  (List.range 37).map (fun i => ⟨100 + i, Side.sell, 101/100, 10, 2000 + i⟩)

/-- The full test order book, buys before sells as the mock returns them. -/
def testOpenOrders : List Order := testBuyOrders ++ testSellOrders

/-- Claim C4: on the repository's own test book (35 buys / 37 sells,
timestamps ascending, target 30 per side), the trimming pass cancels
exactly 5 buys and 7 sells — but it cancels the orders at list positions
30 and up, which under ascending timestamps are the five NEWEST buys
(timestamps 1030..1034), so the retained buys are the 30 OLDEST
(timestamps 1000..1029) and not the 30 most recent (1005..1034) that the
claim and the repository's test (lines 134-138) require. -/
theorem excess_trim_divergence :
    ((excessCancels testOpenOrders Side.buy 30).length = 5 ∧
     (excessCancels testOpenOrders Side.sell 30).length = 7) ∧
    (excessCancels testOpenOrders Side.buy 30).map Order.timestamp
      = [1030, 1031, 1032, 1033, 1034] ∧
    (retainedOrders testOpenOrders Side.buy 30).map Order.timestamp
      = (List.range 30).map (fun i => 1000 + i) ∧
    ¬ ((retainedOrders testOpenOrders Side.buy 30).map Order.timestamp
      = (List.range 30).map (fun i => 1005 + i)) := by
  decide

/-- One placement action of a `placeVolumeOrders` cycle: a book-depth buy
or sell order, or one leg of a matched wash-trade pair. -/
inductive PlacementAction where
  | bookBuy
  | bookSell
  | washBuy
  | washSell
deriving DecidableEq, Repr

/-- Whether an action is a wash-trade leg. -/
def PlacementAction.isWash : PlacementAction → Bool
  | washBuy => true
  | washSell => true
  | bookBuy => false
  | bookSell => false

/-- Target open-order count per side, hard-coded in `placeVolumeOrders`
(part_002 line 234). -/
def targetOrdersPerSide : ℕ := 30

/-- Wash-trade pairs placed per cycle, hard-coded (part_002 line 296). -/
def washTradePairsPerCycle : ℕ := 5

/-- The sequence of order placements of one `placeVolumeOrders` cycle
(part_002 lines 273-322), given the per-side open-order counts observed
after the excess-cancellation pass: a block of book-depth buys up to the
target if the buy side is short, a block of book-depth sells up to the
target if the sell side is short, then — unconditionally —
`washTradePairsPerCycle` matched BUY+SELL wash pairs at the reference
price, then (the source re-checks the stale pre-placement count) the
book-depth sell block a second time. -/
def cycleTrace (buyCount sellCount : ℕ) : List PlacementAction :=
  (if buyCount < targetOrdersPerSide then
    List.replicate (targetOrdersPerSide - buyCount) PlacementAction.bookBuy
  else []) ++
  ((if sellCount < targetOrdersPerSide then
    List.replicate (targetOrdersPerSide - sellCount) PlacementAction.bookSell
  else []) ++
  ((List.replicate washTradePairsPerCycle
      [PlacementAction.washBuy, PlacementAction.washSell]).flatten ++
  (if sellCount < targetOrdersPerSide then
    List.replicate (targetOrdersPerSide - sellCount) PlacementAction.bookSell
  else [])))

/-- Counterexample to claim C5 as stated: a cycle that starts from an empty
order book — both sides strictly below the target of 30 — still executes
wash-trade pairs (all 5 pairs, 10 wash legs, appear in its trace). -/
theorem wash_below_target_counterexample :
    0 < targetOrdersPerSide ∧
    (cycleTrace 0 0).countP PlacementAction.isWash = 2 * washTradePairsPerCycle := by
  decide

/-- Replicated blocks of elements satisfying `p` pass through `takeWhile`. -/
theorem takeWhile_replicate_append {α : Type} (p : α → Bool) (x : α)
    (hx : p x = true) (n : ℕ) (l : List α) :
    (List.replicate n x ++ l).takeWhile p = List.replicate n x ++ l.takeWhile p := by
  induction n with
  | zero => simp
  | succ n ih => simp [List.replicate_succ, List.takeWhile_cons, hx, ih]

/-- The source's `if count < target` guard around a shortfall block is
equivalent to the unguarded block, since the shortfall is 0 at or above
target. -/
theorem if_lt_replicate {α : Type} (n target : ℕ) (x : α) :
    (if n < target then List.replicate (target - n) x else [])
      = List.replicate (target - n) x := by
  split_ifs with h
  · rfl
  · rw [Nat.sub_eq_zero_of_le (Nat.le_of_not_lt h), List.replicate_zero]

/-- No element of a replicated block violating `p` is counted by `countP`. -/
theorem countP_replicate_not {α : Type} (p : α → Bool) (x : α)
    (hx : p x = false) (n : ℕ) :
    (List.replicate n x).countP p = 0 := by
  induction n with
  | zero => simp
  | succ n ih => simp [List.replicate_succ, List.countP_cons, hx, ih]

/-- Claim C5 as amended: in every cycle, the actions preceding the first
wash-trade leg are exactly the book-depth blocks that bring each side up
to the target (30 − buyCount buys followed by 30 − sellCount sells; with
an empty book, exactly 30 buys and 30 sells) — but the cycle then executes
its 5 wash-trade pairs unconditionally, regardless of whether either side
was below target when the cycle observed the book. -/
theorem cycle_trace_amended (buyCount sellCount : ℕ) :
    (cycleTrace buyCount sellCount).takeWhile (fun a => !a.isWash)
      = List.replicate (targetOrdersPerSide - buyCount) PlacementAction.bookBuy
        ++ List.replicate (targetOrdersPerSide - sellCount) PlacementAction.bookSell ∧
    (cycleTrace buyCount sellCount).countP PlacementAction.isWash
      = 2 * washTradePairsPerCycle := by
  have hjoin : (List.replicate washTradePairsPerCycle
      [PlacementAction.washBuy, PlacementAction.washSell]).flatten
      = [PlacementAction.washBuy, PlacementAction.washSell,
         PlacementAction.washBuy, PlacementAction.washSell,
         PlacementAction.washBuy, PlacementAction.washSell,
         PlacementAction.washBuy, PlacementAction.washSell,
         PlacementAction.washBuy, PlacementAction.washSell] := by decide
  constructor
  · rw [cycleTrace, if_lt_replicate, if_lt_replicate, hjoin,
      takeWhile_replicate_append _ _ rfl, takeWhile_replicate_append _ _ rfl]
    simp [List.takeWhile_cons, PlacementAction.isWash]
  · rw [cycleTrace, if_lt_replicate, if_lt_replicate, hjoin]
    simp [List.countP_append,
      countP_replicate_not PlacementAction.isWash PlacementAction.bookBuy rfl,
      countP_replicate_not PlacementAction.isWash PlacementAction.bookSell rfl,
      List.countP_cons, PlacementAction.isWash, washTradePairsPerCycle]

/-! ## Fill / Profit Tracker -/

/-- JS `Math.abs` on rationals, with an explicit comparison. -/
def mathAbs (a : ℚ) : ℚ := if a < 0 then -a else a

theorem mathAbs_eq (a : ℚ) : mathAbs a = |a| := by
  rw [mathAbs]
  split_ifs with h
  · exact (abs_of_neg h).symm
  · exact (abs_of_nonneg (not_lt.mp h)).symm

/-- A tracked order as reported FILLED by `getOrder`: side, fill price and
filled amount. -/
structure FilledOrder where
  side : Side
  price : ℚ
  filled : ℚ
deriving DecidableEq, Repr

/-- An entry of the `orderPrices` tracking map: the side and originally
intended price recorded when the order was placed. -/
structure TrackedPrice where
  side : Side
  price : ℚ
deriving DecidableEq, Repr

/-- The Tracker's cumulative profit statistics (the `ProfitStats` fields the
claims concern; the wall-clock-derived `averageSpreadCaptured` and
`estimatedDailyProfit` fields are time-dependent reporting and are not
modelled). -/
structure ProfitStats where
  realFills : ℕ
  washTrades : ℕ
  totalProfit : ℚ
  profitFromRealFills : ℚ
  bestProfit : ℚ
deriving DecidableEq, Repr

/-- `initializeProfitStats` (part_002 lines 66-76): all counters zero. -/
def initializeProfitStats : ProfitStats := ⟨0, 0, 0, 0, 0⟩

/-- Realized spread percentage of a fill relative to the intended price
(part_002 lines 594 and 597). -/
def spreadPercentOf (side : Side) (intendedPrice fillPrice : ℚ) : ℚ :=
  match side with
  | Side.buy => (intendedPrice - fillPrice) / intendedPrice * 100
  | Side.sell => (fillPrice - intendedPrice) / intendedPrice * 100

/-- Profit of a fill relative to the intended price (part_002 lines 593
and 596): buying below / selling above the intended price is a gain. -/
def profitOf (side : Side) (intendedPrice fillPrice filledAmount : ℚ) : ℚ :=
  match side with
  | Side.buy => (intendedPrice - fillPrice) * filledAmount
  | Side.sell => (fillPrice - intendedPrice) * filledAmount

/-- Processing of one FILLED tracked order by `updateOrderStatus`
(part_002 lines 582-624), restricted to the profit statistics: when an
intended price is tracked, profit and spread are computed from it and the
fill is classified real exactly when
`Math.abs(spreadPercent - 0.3) > 0.05`; without a tracked intended price
the profit is 0 and the fill counts as real. -/
def processFilledOrder (stats : ProfitStats) (originalPrice : Option TrackedPrice)
    (order : FilledOrder) : ProfitStats :=
  let profit : ℚ :=
    match originalPrice with
    | some op => profitOf order.side op.price order.price order.filled
    | none => 0
  let spreadPercent : ℚ :=
    match originalPrice with
    | some op => spreadPercentOf order.side op.price order.price
    | none => 0
  let isRealFill : Bool :=
    match originalPrice with
    | some _ => decide (1/20 < mathAbs (spreadPercent - 3/10))
    | none => true
  { realFills := if isRealFill then stats.realFills + 1 else stats.realFills
    washTrades := if isRealFill then stats.washTrades else stats.washTrades + 1
    totalProfit := stats.totalProfit + profit
    profitFromRealFills :=
      if isRealFill then stats.profitFromRealFills + profit
      else stats.profitFromRealFills
    bestProfit := if stats.bestProfit < profit then profit else stats.bestProfit }

/-- Claim C6: a fill with a tracked intended price is counted as a
wash-trade fill exactly when its realized spread percentage deviates from
the configured 0.3 wash spread by at most 0.05 points, and as a real fill
exactly when the deviation exceeds 0.05 points; with intended price 1.00,
a SELL fill at 1.003 is classified wash and a SELL fill at 1.05 real. -/
theorem fill_spread_classification :
    (∀ (stats : ProfitStats) (op : TrackedPrice) (order : FilledOrder),
      ((processFilledOrder stats (some op) order).washTrades = stats.washTrades + 1 ↔
        mathAbs (spreadPercentOf order.side op.price order.price - 3/10) ≤ 1/20) ∧
      ((processFilledOrder stats (some op) order).realFills = stats.realFills + 1 ↔
        1/20 < mathAbs (spreadPercentOf order.side op.price order.price - 3/10))) ∧
    (processFilledOrder initializeProfitStats (some ⟨Side.sell, 1⟩)
      ⟨Side.sell, 1003/1000, 100⟩).washTrades = 1 ∧
    (processFilledOrder initializeProfitStats (some ⟨Side.sell, 1⟩)
      ⟨Side.sell, 105/100, 100⟩).realFills = 1 := by
  have key : ∀ (stats : ProfitStats) (op : TrackedPrice) (order : FilledOrder),
      ((processFilledOrder stats (some op) order).washTrades = stats.washTrades + 1 ↔
        mathAbs (spreadPercentOf order.side op.price order.price - 3/10) ≤ 1/20) ∧
      ((processFilledOrder stats (some op) order).realFills = stats.realFills + 1 ↔
        1/20 < mathAbs (spreadPercentOf order.side op.price order.price - 3/10)) := by
    intro stats op order
    by_cases h : (1/20 : ℚ) < mathAbs (spreadPercentOf order.side op.price order.price - 3/10)
    · simp [processFilledOrder, h, not_le.mpr h]
    · simp [processFilledOrder, h, not_lt.mp h]
  refine ⟨key, ?_, ?_⟩
  · have := ((key initializeProfitStats ⟨Side.sell, 1⟩ ⟨Side.sell, 1003/1000, 100⟩).1).mpr
      (by norm_num [mathAbs, spreadPercentOf])
    simpa [initializeProfitStats] using this
  · have := ((key initializeProfitStats ⟨Side.sell, 1⟩ ⟨Side.sell, 105/100, 100⟩).2).mpr
      (by norm_num [mathAbs, spreadPercentOf])
    simpa [initializeProfitStats] using this

/-- Claim C7: for a FILLED tracked order with a recorded intended price,
the profit contribution is `(intendedPrice - fillPrice) * filledAmount` for
a BUY and `(fillPrice - intendedPrice) * filledAmount` for a SELL, and it
is added to the cumulative `totalProfit`. -/
theorem fill_profit_formula (stats : ProfitStats) (op : TrackedPrice)
    (order : FilledOrder) :
    (processFilledOrder stats (some op) order).totalProfit
      = stats.totalProfit +
          (if order.side = Side.buy then (op.price - order.price) * order.filled
           else (order.price - op.price) * order.filled) := by
  rcases order with ⟨s, p, f⟩
  cases s <;> simp [processFilledOrder, profitOf]

/-- The outcome reported for one tracked order by a status poll in
`updateOrderStatus`. -/
inductive PollOutcome where
  | filled (order : FilledOrder)
  | canceled
  | stillOpen
  | notFound
  | rateLimited
  | otherError
deriving DecidableEq, Repr

/-- The id-sets of the two local tracking maps `activeOrders` and
`orderPrices` (the claims under verification concern only which order ids
remain tracked, so the map values are not carried). -/
structure TrackingMaps where
  activeOrders : List ℕ
  orderPrices : List ℕ
deriving DecidableEq, Repr

/-- `Map.delete(orderId)` on both tracking maps. -/
def removeOrderId (id : ℕ) (m : TrackingMaps) : TrackingMaps :=
  ⟨m.activeOrders.filter (fun x => decide (x ≠ id)),
   m.orderPrices.filter (fun x => decide (x ≠ id))⟩

/-- One iteration of the `updateOrderStatus` polling loop (part_002 lines
565-651): a FILLED or CANCELED status deletes the order from both maps; the
"Order not found or already completed" error likewise deletes it from both
maps and continues with the next order; a 429 rate limit backs off and
continues; any other status or error leaves the maps unchanged. -/
def pollStep (m : TrackingMaps) (id : ℕ) (r : PollOutcome) : TrackingMaps :=
  match r with
  | PollOutcome.filled _ => removeOrderId id m
  | PollOutcome.canceled => removeOrderId id m
  | PollOutcome.notFound => removeOrderId id m
  | PollOutcome.stillOpen => m
  | PollOutcome.rateLimited => m
  | PollOutcome.otherError => m

/-- The `updateOrderStatus` loop over one polled batch of tracked orders,
folding `pollStep` over the per-order outcomes: no outcome aborts the
batch. -/
def updateOrderStatusBatch (m : TrackingMaps) (batch : List (ℕ × PollOutcome)) :
    TrackingMaps :=
  batch.foldl (fun acc pr => pollStep acc pr.1 pr.2) m

theorem removeOrderId_not_mem (id : ℕ) (m : TrackingMaps) :
    id ∉ (removeOrderId id m).activeOrders ∧ id ∉ (removeOrderId id m).orderPrices := by
  constructor <;> · intro h; simp [removeOrderId] at h

theorem removeOrderId_preserves_not_mem (i id : ℕ) (m : TrackingMaps)
    (ha : id ∉ m.activeOrders) (hp : id ∉ m.orderPrices) :
    id ∉ (removeOrderId i m).activeOrders ∧ id ∉ (removeOrderId i m).orderPrices := by
  constructor <;> intro h
  · exact ha (List.mem_of_mem_filter h)
  · exact hp (List.mem_of_mem_filter h)

theorem pollStep_preserves_not_mem (m : TrackingMaps) (i id : ℕ) (r : PollOutcome)
    (ha : id ∉ m.activeOrders) (hp : id ∉ m.orderPrices) :
    id ∉ (pollStep m i r).activeOrders ∧ id ∉ (pollStep m i r).orderPrices := by
  cases r <;>
    first
      | exact removeOrderId_preserves_not_mem i id m ha hp
      | exact ⟨ha, hp⟩

theorem batch_preserves_not_mem (batch : List (ℕ × PollOutcome))
    (m : TrackingMaps) (id : ℕ)
    (ha : id ∉ m.activeOrders) (hp : id ∉ m.orderPrices) :
    id ∉ (updateOrderStatusBatch m batch).activeOrders ∧
    id ∉ (updateOrderStatusBatch m batch).orderPrices := by
  induction batch generalizing m with
  | nil => exact ⟨ha, hp⟩
  | cons hd tl ih =>
    have step := pollStep_preserves_not_mem m hd.1 id hd.2 ha hp
    exact ih (pollStep m hd.1 hd.2) step.1 step.2

/-- Claim C8: any tracked order whose poll reports FILLED, CANCELED, or the
not-found error is removed from both tracking maps by the end of the batch,
and a not-found outcome is handled as ordinary pruning: the batch simply
continues with the remaining orders. -/
theorem terminal_poll_prunes (m : TrackingMaps) (batch : List (ℕ × PollOutcome))
    (id : ℕ) (r : PollOutcome)
    (hmem : (id, r) ∈ batch)
    (hterm : (∃ o, r = PollOutcome.filled o) ∨ r = PollOutcome.canceled ∨
      r = PollOutcome.notFound) :
    (id ∉ (updateOrderStatusBatch m batch).activeOrders ∧
     id ∉ (updateOrderStatusBatch m batch).orderPrices) ∧
    ∀ (m₂ : TrackingMaps) (rest : List (ℕ × PollOutcome)) (i : ℕ),
      updateOrderStatusBatch m₂ ((i, PollOutcome.notFound) :: rest)
        = updateOrderStatusBatch (removeOrderId i m₂) rest := by
  refine ⟨?_, fun m₂ rest i => rfl⟩
  have hremoved : pollStep m id r = removeOrderId id m := by
    rcases hterm with ⟨o, rfl⟩ | rfl | rfl <;> rfl
  induction batch generalizing m with
  | nil => cases hmem
  | cons hd tl ih =>
    rcases List.mem_cons.mp hmem with heq | htl
    · have : updateOrderStatusBatch m (hd :: tl)
          = updateOrderStatusBatch (pollStep m hd.1 hd.2) tl := rfl
      rw [this, ← heq]
      have hstep : pollStep m id r = removeOrderId id m := by
        rcases hterm with ⟨o, rfl⟩ | rfl | rfl <;> rfl
      rw [hstep]
      exact batch_preserves_not_mem tl (removeOrderId id m) id
        (removeOrderId_not_mem id m).1 (removeOrderId_not_mem id m).2
    · have : updateOrderStatusBatch m (hd :: tl)
          = updateOrderStatusBatch (pollStep m hd.1 hd.2) tl := rfl
      rw [this]
      exact ih (pollStep m hd.1 hd.2) htl (by
        rcases hterm with ⟨o, rfl⟩ | rfl | rfl <;> rfl)

/-- Witness for C8: in a batch polling orders 7 (not found) and 8 (still
open) against maps tracking ids 7 and 8, order 7 is pruned from both maps
and the batch still processes order 8. -/
theorem terminal_poll_prunes_witness :
    (7, PollOutcome.notFound) ∈
      [(7, PollOutcome.notFound), (8, PollOutcome.stillOpen)] ∧
    ((∃ o, PollOutcome.notFound = PollOutcome.filled o) ∨
      PollOutcome.notFound = PollOutcome.canceled ∨
      PollOutcome.notFound = PollOutcome.notFound) ∧
    ((7 ∉ (updateOrderStatusBatch ⟨[7, 8], [7, 8]⟩
        [(7, PollOutcome.notFound), (8, PollOutcome.stillOpen)]).activeOrders ∧
      7 ∉ (updateOrderStatusBatch ⟨[7, 8], [7, 8]⟩
        [(7, PollOutcome.notFound), (8, PollOutcome.stillOpen)]).orderPrices) ∧
     ∀ (m₂ : TrackingMaps) (rest : List (ℕ × PollOutcome)) (i : ℕ),
       updateOrderStatusBatch m₂ ((i, PollOutcome.notFound) :: rest)
         = updateOrderStatusBatch (removeOrderId i m₂) rest) :=
  ⟨List.mem_cons_self _ _, Or.inr (Or.inr rfl),
   terminal_poll_prunes ⟨[7, 8], [7, 8]⟩
     [(7, PollOutcome.notFound), (8, PollOutcome.stillOpen)] 7 PollOutcome.notFound
     (List.mem_cons_self _ _) (Or.inr (Or.inr rfl))⟩

/-! ## Balance-checked order placement (DEX-referenced revision) -/

/-- Outcome of `placeBuyOrder` / `placeSellOrder`: the tracking maps after
the call, whether an order was submitted to the exchange, and the returned
order id. -/
structure PlaceOutcome where
  maps : TrackingMaps
  submitted : Bool
  orderId : Option ℕ
deriving DecidableEq, Repr

/-- `placeBuyOrder` (part_002 lines 451-485): the freshly fetched free USDT
balance is compared against the order notional `amount * price`; if the
notional exceeds it the call returns without contacting the exchange and
without touching the tracking maps.  Otherwise the order is submitted;
`resp` is the exchange's reply (`none` models an undefined reply, after
which nothing is tracked), and on a real reply the order id is added to
both tracking maps. -/
def placeBuyOrder (availableUSDT price amount : ℚ) (resp : Option ℕ)
    (m : TrackingMaps) : PlaceOutcome :=
  if availableUSDT < amount * price then ⟨m, false, none⟩
  else
    match resp with
    | none => ⟨m, true, none⟩
    | some oid => ⟨⟨oid :: m.activeOrders, oid :: m.orderPrices⟩, true, some oid⟩

/-- `placeSellOrder` (part_002 lines 487-520): the freshly fetched free
EPWX balance is compared against the order amount; if the amount exceeds it
the call returns without contacting the exchange and without touching the
tracking maps. -/
def placeSellOrder (availableEPWX price amount : ℚ) (resp : Option ℕ)
    (m : TrackingMaps) : PlaceOutcome :=
  if availableEPWX < amount then ⟨m, false, none⟩
  else
    match resp with
    | none => ⟨m, true, none⟩
    | some oid => ⟨⟨oid :: m.activeOrders, oid :: m.orderPrices⟩, true, some oid⟩

/-- Claim C10: a buy order is submitted only when its notional
`amount * price` is at most the freshly fetched free USDT balance, and a
sell order only when its amount is at most the freshly fetched free EPWX
balance; otherwise the call returns unsubmitted with the tracking maps
unchanged. -/
theorem balance_checked_placement (availableUSDT availableEPWX price amount : ℚ)
    (resp : Option ℕ) (m : TrackingMaps) :
    ((placeBuyOrder availableUSDT price amount resp m).submitted = true →
      amount * price ≤ availableUSDT) ∧
    (availableUSDT < amount * price →
      placeBuyOrder availableUSDT price amount resp m = ⟨m, false, none⟩) ∧
    ((placeSellOrder availableEPWX price amount resp m).submitted = true →
      amount ≤ availableEPWX) ∧
    (availableEPWX < amount →
      placeSellOrder availableEPWX price amount resp m = ⟨m, false, none⟩) := by
  refine ⟨?_, ?_, ?_, ?_⟩
  · intro hsub
    by_contra hgt
    rw [placeBuyOrder.eq_def, if_pos (not_le.mp hgt)] at hsub
    exact Bool.false_ne_true hsub
  · intro hgt
    rw [placeBuyOrder.eq_def, if_pos hgt]
  · intro hsub
    by_contra hgt
    rw [placeSellOrder.eq_def, if_pos (not_le.mp hgt)] at hsub
    exact Bool.false_ne_true hsub
  · intro hgt
    rw [placeSellOrder.eq_def, if_pos hgt]

/-- Witness for C10: with $5 free USDT a 3-token buy at price 2 (notional 6)
is skipped, and with 1 free EPWX a 3-token sell is skipped; in both cases
the maps are untouched. -/
theorem balance_checked_placement_witness :
    ((5 : ℚ) < 3 * 2 ∧
      placeBuyOrder 5 2 3 (some 1) ⟨[], []⟩ = ⟨⟨[], []⟩, false, none⟩) ∧
    ((1 : ℚ) < 3 ∧
      placeSellOrder 1 2 3 (some 1) ⟨[], []⟩ = ⟨⟨[], []⟩, false, none⟩) :=
  ⟨⟨by norm_num,
    (balance_checked_placement 5 1 2 3 (some 1) ⟨[], []⟩).2.1 (by norm_num)⟩,
   ⟨by norm_num,
    (balance_checked_placement 5 1 2 3 (some 1) ⟨[], []⟩).2.2.2 (by norm_num)⟩⟩

end EpowerX

